import Mathlib

/-!
Shallow embedding of `src/fonpr/agents/fonpr_env.py` (class `FONPR_Env`).

Conventions of the embedding:
* Python floats are modelled by `ℚ`; pandas `NaN` cells by `Option ℚ`
  (`none` = NaN), so a processed throughput column is a `List (Option ℚ)`.
* The Prometheus response `prom_response` is modelled structurally:
  `prom_response[0][0]['values']` is the throughput time series
  (timestamp in seconds, value), `prom_response[1]` is the pod list, and
  the per-node `kube_node_labels` lookups are a total function from node
  name to instance type (well-formed backend data).
* Exceptions raised by the external metrics client or by the action
  handler are modelled with `Except ExtErr`; an operation that raises
  returns `.error`.  Data-shape errors raised inside `_get_obs`
  (`df.iloc[0,0]` on an empty frame, `int(60/0)`, `np.zeros` of a
  negative size) make `_get_obs` return `none`.
* External glue that is not part of this repository's sources
  (`ec2_cost_calculator` from `utilities`, `ActionHandler` from
  `action_handler`) is modelled from the spec: the cost lookup is an
  arbitrary total function `String → ℚ`, and the action handler is an
  observable "dispatch" event recorded in the step outcome together with
  a boolean telling whether the push succeeded.
* Side effects of `step` (configuration dispatches, sleeps) are recorded
  in the returned `StepOutcome` rather than performed.
-/

/-- State of the environment object: the fields assigned in `__init__`.
`observation_space` is modelled by its Box shape `(samples, 1)` and
`action_space` (a `Discrete(3)`) by its number of actions. -/
structure FONPR_Env where
  window : ℕ
  sample_rate : ℕ
  samples : ℕ
  obs_period : ℕ
  instance_size : String
  observation_space : ℕ × ℕ
  action_space : ℕ
  render_mode : Option String
  step_counter : ℕ
deriving Repr

/-- Constructor `__init__(self, render_mode=None, window=15, sample_rate=4, obs_period=5)`. -/
def FONPR_Env.init (render_mode : Option String := none) (window : ℕ := 15)
    (sample_rate : ℕ := 4) (obs_period : ℕ := 5) : FONPR_Env :=
  { window := window
    sample_rate := sample_rate
    samples := window * sample_rate
    obs_period := obs_period
    -- Temporary use until instance presence can be tracked
    instance_size := "Large"
    -- Box(low, high, shape=(self.samples, low.shape[1])) with low = tile([0.], (samples,1))
    observation_space := (window * sample_rate, 1)
    -- spaces.Discrete(3)
    action_space := 3
    render_mode := render_mode
    step_counter := 0 }

/-- One entry of `prom_response[1]`: a pod with its `host_ip` and `values`. -/
structure Pod where
  host_ip : String
  values : List (ℕ × ℚ)
deriving Repr, DecidableEq

/-- The data `_get_obs` pulls from the monitoring backend: the throughput
series `prom_response[0][0]['values']`, the pod list `prom_response[1]`,
and the `kube_node_labels` instance-type lookup keyed by node name. -/
structure PromResponse where
  throughput : List (ℕ × ℚ)
  pods : List Pod
  nodeLabels : String → String

/-- Errors raised by the external clients and propagated unhandled. -/
inductive ExtErr where
  | clientError
  | dataError
  | handlerError
deriving Repr, DecidableEq

/-- Normalization `df['Throughput'] - df.iloc[0,0]`: subtract the value at the first
timestamp from every value (the first row of the positional order). -/
def normalizeSeries (raw : List (ℕ × ℚ)) : List (ℕ × ℚ) :=
  match raw with
  | [] => []
  | (_, v0) :: _ => raw.map (fun tv => (tv.1, tv.2 - v0))

/-- Resampling period `int(60/self.sample_rate)` in seconds. -/
def resamplePeriod (sample_rate : ℕ) : ℕ := 60 / sample_rate

/-- Mean of a bin, as taken by `.resample(...).mean()`. -/
def listMean (l : List ℚ) : ℚ := l.sum / l.length

/-- Values of the series falling into the time bin of width `p` seconds
with index `b` (timestamps `t` with `t / p = b`). -/
def binValues (p : ℕ) (raw : List (ℕ × ℚ)) (b : ℕ) : List ℚ :=
  (raw.filter (fun tv => tv.1 / p = b)).map Prod.snd

/-- Resampling `df.resample(f'{p}s').mean()`: one row per `p`-second bin from the
first occupied bin to the last; a bin holding no sample becomes NaN. -/
def resampleBins (p : ℕ) (raw : List (ℕ × ℚ)) : List (Option ℚ) :=
  match raw with
  | [] => []
  | (t0, _) :: _ =>
    let bins := raw.map (fun tv => tv.1 / p)
    let b0 := bins.foldl min (t0 / p)
    let b1 := bins.foldl max (t0 / p)
    (List.range (b1 - b0 + 1)).map (fun i =>
      let vs := binValues p raw (b0 + i)
      if vs.isEmpty then none else some (listMean vs))

/-- Last defined cell at position `≤ i`. -/
def prevDefined (l : List (Option ℚ)) (i : ℕ) : Option (ℕ × ℚ) :=
  ((List.range (i + 1)).filterMap (fun j => (l.getD j none).map (fun v => (j, v)))).getLast?

/-- First defined cell at position `≥ i`. -/
def nextDefined (l : List (Option ℚ)) (i : ℕ) : Option (ℕ × ℚ) :=
  ((List.range (l.length - i)).filterMap
    (fun k => (l.getD (i + k) none).map (fun v => (i + k, v)))).head?

/-- Interpolation `df.interpolate()` with the default linear method: a NaN cell between
two defined cells is filled linearly in the position index; a trailing
NaN is filled with the last defined value; a leading NaN stays NaN. -/
def interpolateLinear (l : List (Option ℚ)) : List (Option ℚ) :=
  (List.range l.length).map (fun i =>
    match l.getD i none with
    | some v => some v
    | none =>
      match prevDefined l i, nextDefined l i with
      | some (j, a), some (k, b) =>
          some (a + (b - a) * (((i : ℚ) - (j : ℚ)) / ((k : ℚ) - (j : ℚ))))
      | some (_, a), none => some a
      | none, _ => none)

/-- Lines 55-63 of `_get_obs`: build the throughput frame, normalize to
the first value, interpolate (a no-op here: the parsed values carry no
NaN), resample to `int(60/sample_rate)`-second bins, interpolate again.
`none` models the exceptions: `df.iloc[0,0]` raises on an empty series,
and `int(60/0)` raises `ZeroDivisionError`. -/
def resamplePipeline (sample_rate : ℕ) (raw : List (ℕ × ℚ)) : Option (List (Option ℚ)) :=
  match raw with
  | [] => none
  | _ =>
    if sample_rate = 0 then none
    else
      some (interpolateLinear (resampleBins (resamplePeriod sample_rate) (normalizeSeries raw)))

/-- Node name `'ip-' + host_ip.replace('.', '-') + '.ec2.internal'`. -/
def nodeName (host_ip : String) : String :=
  "ip-" ++ host_ip.replace "." "-" ++ ".ec2.internal"

/-- Lines 71-85 of `_get_obs`: the `pods` dict, mapping each pod to its
host ip, values and the instance type looked up via `kube_node_labels`.
It is built and then never used in the returned observation. -/
def processPods (resp : PromResponse) : List (String × List (ℕ × ℚ) × String) :=
  resp.pods.map (fun pod =>
    (pod.host_ip, pod.values, resp.nodeLabels (nodeName pod.host_ip)))

/-- Observation query `_get_obs` (lines 49-91).  Returns the observation column vector as a
list of cells (`reshape(n, 1)` makes the shape `(n, 1)`; the list holds
the column entries).  `none` models an exception escaping `_get_obs`:
an empty series, a zero sample rate, or `np.insert(..., np.zeros(k))`
with `k = samples - len < 0` (NumPy rejects a negative size). -/
def FONPR_Env.getObs (env : FONPR_Env) (resp : PromResponse) : Option (List (Option ℚ)) :=
  match resamplePipeline env.sample_rate resp.throughput with
  | none => none
  | some through_vals =>
    if through_vals.length ≠ env.samples then
      if env.samples < through_vals.length then
        none
      else
        let through_vals' :=
          List.replicate (env.samples - through_vals.length) (some (0 : ℚ)) ++ through_vals
        let _pods := processPods resp
        some through_vals'
    else
      let _pods := processPods resp
      some through_vals

/-- Wrapper for `_get_obs` when the client call itself may raise: a raised client
error propagates, a data-shape exception inside `_get_obs` becomes
`.error .dataError`. -/
def FONPR_Env.getObsE (env : FONPR_Env) (promResult : Except ExtErr PromResponse) :
    Except ExtErr (List (Option ℚ)) :=
  match promResult with
  | .error e => .error e
  | .ok resp =>
    match env.getObs resp with
    | none => .error .dataError
    | some obs => .ok obs

/-- Info dict `_get_info` (lines 93-95): the empty dict. -/
def FONPR_Env.getInfo (_env : FONPR_Env) : List (String × String) := []

/-- Model of `reset` (lines 97-104): returns `(observation, info)`; the fields set
in `__init__` are untouched (`super().reset` only seeds `np_random`,
which is gym-internal state outside this structure).  An error from the
metrics client propagates unhandled. -/
def FONPR_Env.reset (env : FONPR_Env) (promResult : Except ExtErr PromResponse) :
    Except ExtErr (List (Option ℚ) × List (String × String)) × FONPR_Env :=
  match env.getObsE promResult with
  | .error e => (.error e, env)
  | .ok observation => (.ok (observation, env.getInfo), env)

/-- Constant `3.33e-9`, the rough estimate of dollars per byte (line 123). -/
def rxtx_value : ℚ := 333 / 100000000000

/-- Sum `np.sum(observation)`: sum of the cells, NaN if any cell is NaN. -/
def npSum : List (Option ℚ) → Option ℚ
  | [] => some 0
  | x :: xs => x.bind (fun v => (npSum xs).map (fun s => v + s))

/-- The configuration updates `step` pushes for a given action:
`{"target_pod": "upf", "values": "Large"}` for action 1,
`{"target_pod": "upf", "values": "Small"}` for action 2, nothing for
action 0 or any other value (the `if/elif` chain has no else branch). -/
def attemptedDispatches (action : ℕ) : List (String × String) :=
  if action = 1 then [("upf", "Large")]
  else if action = 2 then [("upf", "Small")]
  else []

/-- The tuple returned by a completed call to `step`. -/
structure StepResult where
  observation : List (Option ℚ)
  reward : Option ℚ
  terminated : Bool
  truncated : Bool
  info : List (String × String)
deriving Repr, DecidableEq

/-- Everything observable about one call to `step`: the configuration
updates pushed to the remote repository, the sleeps performed, the
returned tuple (or the propagated error), and the environment state
afterwards. -/
structure StepOutcome where
  dispatches : List (String × String)
  sleeps : List ℕ
  result : Except ExtErr StepResult
  env : FONPR_Env

/-- Model of `step` (lines 106-139).  `costCalc` models the external
`ec2_cost_calculator`; `handlerOk` tells whether the
`ActionHandler.fetch_update_push_upf_sizing()` call succeeds (when it
raises, the exception propagates before the sleep and the query);
`promResult` is the outcome of the Prometheus query made by `_get_obs`.
The commented-out cost subtraction of lines 130-131 is not part of the
reward. -/
def FONPR_Env.step (env : FONPR_Env) (action : ℕ) (costCalc : String → ℚ)
    (handlerOk : Bool) (promResult : Except ExtErr PromResponse) : StepOutcome :=
  let dispatches := attemptedDispatches action
  if (action = 1 ∨ action = 2) ∧ handlerOk = false then
    -- the handler raised inside the elif branch: nothing else runs
    { dispatches := [], sleeps := [], result := .error .handlerError, env := env }
  else
    -- sleep(10) # For testing   (the obs_period-based sleep is commented out)
    let sleeps := [10]
    let _li_cost := costCalc "m4.large"
    let _si_cost := costCalc "t3.medium"
    match env.getObsE promResult with
    | .error e =>
      -- the exception from the query propagates; step_counter is never reached
      { dispatches := dispatches, sleeps := sleeps, result := .error e, env := env }
    | .ok observation =>
      -- reward = rxtx_value * np.sum(observation)  (cost terms commented out)
      let reward := (npSum observation).map (fun s => rxtx_value * s)
      let info := env.getInfo
      let terminated := false
      let env' := { env with step_counter := env.step_counter + 1 }
      let truncated := env'.step_counter % 6 = 0
      { dispatches := dispatches, sleeps := sleeps
        result := .ok { observation := observation, reward := reward,
                        terminated := terminated, truncated := decide truncated, info := info }
        env := env' }

/-- States of the environment reachable from construction through any
sequence of `reset` and `step` calls. -/
inductive Reachable : FONPR_Env → Prop where
  | init : ∀ rm w r p, Reachable (FONPR_Env.init rm w r p)
  | reset : ∀ env pr, Reachable env → Reachable (env.reset pr).2
  | step : ∀ env a cc h pr, Reachable env → Reachable (env.step a cc h pr).env

/-- Modelled from the spec: the reward the claim describes (revenue from
throughput minus the cost of the large instance and the cost of the
small instance), to be compared with the reward the code computes. -/
def specReward (costCalc : String → ℚ) (observation : List (Option ℚ)) : Option ℚ :=
  (npSum observation).map
    (fun s => rxtx_value * s - costCalc "m4.large" - costCalc "t3.medium")

/-! ## Concrete inputs used by witnesses and counterexamples -/

/-- Default-constructed environment: `FONPR_Env(None, 15, 4, 5)`. -/
def env0 : FONPR_Env := FONPR_Env.init none 15 4 5

/-- A minimal well-formed backend response: one throughput sample at
time 0, no pods. -/
def pr0 : PromResponse := { throughput := [(0, 5)], pods := [], nodeLabels := fun _ => "" }

/-- A response with the same throughput series as `pr0` but different
pod and node-instance-type data. -/
def pr1 : PromResponse :=
  { throughput := [(0, 5)]
    pods := [{ host_ip := "10.0.0.1", values := [(0, 1)] }]
    nodeLabels := fun _ => "m4.large" }

/-- A cost calculator charging one dollar per hour for every EC2
instance type. -/
def oneCost : String → ℚ := fun _ => 1

/-- The tuple returned by `env0.step 0 oneCost true (.ok pr0)`. -/
def res0 : StepResult :=
  { observation := List.replicate 60 (some 0), reward := some 0,
    terminated := false, truncated := false, info := [] }


/-! ## Shared helper lemmas -/

/-- The operation `reset` leaves the environment structure unchanged. -/
theorem reset_env_unchanged (env : FONPR_Env) (pr : Except ExtErr PromResponse) :
    (env.reset pr).2 = env := by
  unfold FONPR_Env.reset
  split <;> rfl

/-- With a succeeding action handler, `step` records exactly the
dispatches of the `if/elif` chain for the given action. -/
theorem step_dispatches_eq (env : FONPR_Env) (a : ℕ) (cc : String → ℚ)
    (pr : Except ExtErr PromResponse) :
    (env.step a cc true pr).dispatches = attemptedDispatches a := by
  simp only [FONPR_Env.step, Bool.true_eq_false, and_false, if_false]
  split <;> rfl

/-- Frame lemma: `step` preserves every field of the environment except possibly
`step_counter`. -/
theorem step_env_frame (env : FONPR_Env) (a : ℕ) (cc : String → ℚ) (h : Bool)
    (pr : Except ExtErr PromResponse) :
    (env.step a cc h pr).env.window = env.window ∧
    (env.step a cc h pr).env.sample_rate = env.sample_rate ∧
    (env.step a cc h pr).env.samples = env.samples ∧
    (env.step a cc h pr).env.obs_period = env.obs_period ∧
    (env.step a cc h pr).env.instance_size = env.instance_size ∧
    (env.step a cc h pr).env.observation_space = env.observation_space ∧
    (env.step a cc h pr).env.action_space = env.action_space ∧
    (env.step a cc h pr).env.render_mode = env.render_mode := by
  unfold FONPR_Env.step
  split
  · exact ⟨rfl, rfl, rfl, rfl, rfl, rfl, rfl, rfl⟩
  · split <;> exact ⟨rfl, rfl, rfl, rfl, rfl, rfl, rfl, rfl⟩

/-- The result tuple of a completed `step` call, extracted from the
definition: its fields in terms of the observation and the entry
counter. -/
theorem step_result_ok (env : FONPR_Env) (a : ℕ) (cc : String → ℚ) (h : Bool)
    (pr : Except ExtErr PromResponse) (res : StepResult)
    (hres : (env.step a cc h pr).result = .ok res) :
    ∃ obs, env.getObsE pr = .ok obs ∧
      res = { observation := obs,
              reward := (npSum obs).map (fun s => rxtx_value * s),
              terminated := false,
              truncated := decide ((env.step_counter + 1) % 6 = 0),
              info := env.getInfo } ∧
      (env.step a cc h pr).env = { env with step_counter := env.step_counter + 1 } := by
  by_cases hc : (a = 1 ∨ a = 2) ∧ h = false
  · simp only [FONPR_Env.step, if_pos hc] at hres
    simp at hres
  · cases hgo : env.getObsE pr with
    | error e =>
      simp only [FONPR_Env.step, if_neg hc, hgo] at hres
      simp at hres
    | ok obs =>
      refine ⟨obs, rfl, ?_, ?_⟩
      · simp only [FONPR_Env.step, if_neg hc, hgo] at hres
        exact (Except.ok.inj hres).symm
      · simp only [FONPR_Env.step, if_neg hc, hgo]

/-- Summing an all-zero observation with `np.sum` gives zero. -/
theorem npSum_replicate_zero (n : ℕ) : npSum (List.replicate n (some 0)) = some 0 := by
  induction n with
  | zero => rfl
  | succ n ih => simp [List.replicate_succ, npSum, ih]

/-- Concrete run of the pandas pipeline on the series of `pr0`. -/
theorem pipeline_pr0_eval : resamplePipeline 4 pr0.throughput = some [some 0] := by
  norm_num [pr0, resamplePipeline, resamplePeriod, normalizeSeries, resampleBins,
    binValues, listMean, interpolateLinear, prevDefined, nextDefined, List.range_succ]

/-- Concrete run of `_get_obs` on `pr0`: 59 prepended zeros plus the
one resampled (normalized) sample. -/
theorem getObs_env0_pr0 : env0.getObs pr0 = some (List.replicate 60 (some 0)) := by
  rw [show (60 : ℕ) = 59 + 1 from rfl, List.replicate_succ']
  simp [FONPR_Env.getObs, env0, FONPR_Env.init, pipeline_pr0_eval]

/-- Concrete run of `step` with a no-op action on `env0` and `pr0`. -/
theorem step_env0_eval : (env0.step 0 oneCost true (.ok pr0)).result = .ok res0 := by
  have hc : ¬(((0 : ℕ) = 1 ∨ (0 : ℕ) = 2) ∧ (true : Bool) = false) := by simp
  simp only [FONPR_Env.step, if_neg hc, FONPR_Env.getObsE, getObs_env0_pr0]
  rw [npSum_replicate_zero]
  simp only [Option.map_some', mul_zero, res0, FONPR_Env.getInfo]
  norm_num [env0, FONPR_Env.init]

/-! ## The claims -/

/-- C1 (counterexample): the reward returned by `step` is not the
claimed revenue-minus-costs quantity.  With a cost calculator charging
one dollar per hour per instance and an all-zero observation, the code
returns reward 0 while revenue minus the large- and small-instance
costs would be -2: the subtraction of lines 130-131 is commented out. -/
theorem step_reward_ignores_costs_cex :
    (env0.step 0 oneCost true (.ok pr0)).result = .ok res0 ∧
    res0.reward ≠ specReward oneCost res0.observation := by
  refine ⟨step_env0_eval, ?_⟩
  simp only [res0, specReward, npSum_replicate_zero, Option.map_some', oneCost]
  norm_num [rxtx_value]

/-- C1 (amended): for every completed call to `step`, the returned
reward is revenue-only: `rxtx_value` times the sum of the observation;
the instance costs are looked up but never subtracted. -/
theorem step_reward_revenue_only (env : FONPR_Env) (a : ℕ) (cc : String → ℚ)
    (h : Bool) (pr : Except ExtErr PromResponse) (res : StepResult)
    (hres : (env.step a cc h pr).result = .ok res) :
    res.reward = (npSum res.observation).map (fun s => rxtx_value * s) := by
  obtain ⟨obs, -, hres', -⟩ := step_result_ok env a cc h pr res hres
  subst hres'
  rfl

/-- Witness for the amended C1 at the concrete run
`env0.step 0 oneCost true (.ok pr0)`. -/
theorem step_reward_revenue_only_witness :
    res0.reward = (npSum res0.observation).map (fun s => rxtx_value * s) :=
  step_reward_revenue_only env0 0 oneCost true (.ok pr0) res0 step_env0_eval

/-- C2 (confirmed): the action space is `Discrete(3)`, and with a
succeeding handler action 0 dispatches nothing, action 1 dispatches
exactly one update scaling the UPF target to "Large", and action 2
exactly one update scaling it to "Small". -/
theorem step_action_space_and_dispatches (rm : Option String) (w r p : ℕ)
    (env : FONPR_Env) (cc : String → ℚ) (pr : Except ExtErr PromResponse) :
    (FONPR_Env.init rm w r p).action_space = 3 ∧
    (env.step 0 cc true pr).dispatches = [] ∧
    (env.step 1 cc true pr).dispatches = [("upf", "Large")] ∧
    (env.step 2 cc true pr).dispatches = [("upf", "Small")] :=
  ⟨rfl, step_dispatches_eq env 0 cc pr, step_dispatches_eq env 1 cc pr,
    step_dispatches_eq env 2 cc pr⟩

/-- C3 (counterexample): the code resamples at `int(60/sample_rate)`
seconds, which is not one sample every `60/r` seconds for every `r`
fixed at construction: at `r = 8` the bins are 7 seconds wide, and 8
bins of 7 seconds cover 56 seconds, not 60. -/
theorem resample_period_not_exact_cex :
    resamplePeriod 8 = 7 ∧ resamplePeriod 8 * 8 ≠ 60 := by decide

/-- C3 (amended): the series is resampled to one sample every
`⌊60/r⌋` seconds; whenever the resampled series has at most `w * r`
entries, `_get_obs` returns it with zeros prepended up to length
`w * r` — a column vector of shape `(w*r, 1)` — and `reset` and `step`
return exactly that observation. -/
theorem getObs_shape_zeros (rm : Option String) (w r p a : ℕ) (cc : String → ℚ)
    (resp : PromResponse) (df : List (Option ℚ))
    (hdf : resamplePipeline r resp.throughput = some df)
    (hlen : df.length ≤ w * r) :
    resamplePeriod r = 60 / r ∧
    (FONPR_Env.init rm w r p).getObs resp =
      some (List.replicate (w * r - df.length) (some 0) ++ df) ∧
    (List.replicate (w * r - df.length) (some (0 : ℚ)) ++ df).length = w * r ∧
    ((FONPR_Env.init rm w r p).reset (.ok resp)).1 =
      .ok (List.replicate (w * r - df.length) (some 0) ++ df, []) ∧
    ((FONPR_Env.init rm w r p).step a cc true (.ok resp)).result.map
        StepResult.observation =
      .ok (List.replicate (w * r - df.length) (some 0) ++ df) := by
  have hobs : (FONPR_Env.init rm w r p).getObs resp =
      some (List.replicate (w * r - df.length) (some 0) ++ df) := by
    simp only [FONPR_Env.getObs, FONPR_Env.init]
    rw [hdf]
    by_cases hcase : df.length = w * r
    · simp [hcase]
    · have h2 : ¬(w * r < df.length) := not_lt.mpr hlen
      simp [hcase, h2]
  have hc : ¬((a = 1 ∨ a = 2) ∧ (true : Bool) = false) := by simp
  refine ⟨rfl, hobs, ?_, ?_, ?_⟩
  · simp only [List.length_append, List.length_replicate]
    omega
  · simp only [FONPR_Env.reset, FONPR_Env.getObsE, hobs]
    rfl
  · simp only [FONPR_Env.step, if_neg hc, FONPR_Env.getObsE, hobs]
    rfl

/-- Witness for the amended C3: the default environment with the
one-sample series of `pr0`, whose resampled series has one entry. -/
theorem getObs_shape_zeros_witness :
    (FONPR_Env.init none 15 4 5).getObs pr0 =
      some (List.replicate (15 * 4 - [some (0 : ℚ)].length) (some 0) ++ [some 0]) :=
  (getObs_shape_zeros none 15 4 5 0 oneCost pr0 [some 0] pipeline_pr0_eval (by decide)).2.1

/-- C4 (confirmed): neither `reset` nor `step` handles failures.  An
error raised by the metrics client propagates unhandled out of `reset`
and out of `step`; in that case `step_counter` is unchanged (it is
incremented only after the observation succeeds) even though for
actions 1 and 2 the scaling update has already been dispatched; and an
error raised by the action handler propagates unhandled out of `step`. -/
theorem errors_propagate_unhandled (env : FONPR_Env) (a : ℕ) (cc : String → ℚ)
    (e : ExtErr) (pr : Except ExtErr PromResponse) :
    (env.reset (.error e)).1 = .error e ∧
    (env.reset (.error e)).2 = env ∧
    (env.step a cc true (.error e)).result = .error e ∧
    (env.step a cc true (.error e)).env.step_counter = env.step_counter ∧
    (env.step a cc true (.error e)).dispatches = attemptedDispatches a ∧
    (env.step 1 cc false pr).result = .error .handlerError ∧
    (env.step 2 cc false pr).result = .error .handlerError := by
  have hc : ¬((a = 1 ∨ a = 2) ∧ (true : Bool) = false) := by simp
  refine ⟨rfl, reset_env_unchanged env _, ?_, ?_, step_dispatches_eq env a cc _, rfl, rfl⟩
  · simp only [FONPR_Env.step, if_neg hc]
    rfl
  · simp only [FONPR_Env.step, if_neg hc]
    rfl

/-- C5 (confirmed): for every action and every environment (hence every
configured `obs_period`), `step` sleeps the hardcoded 10 seconds before
retrieving the next observation; the `obs_period`-based sleep of line
120 is commented out. -/
theorem step_sleeps_hardcoded_ten (env : FONPR_Env) (a : ℕ) (cc : String → ℚ)
    (pr : Except ExtErr PromResponse) :
    (env.step a cc true pr).sleeps = [10] := by
  have hc : ¬((a = 1 ∨ a = 2) ∧ (true : Bool) = false) := by simp
  simp only [FONPR_Env.step, if_neg hc]
  split <;> rfl

/-- C6 (confirmed): in every reachable state the placeholder field
`instance_size` equals "Large"; it is set in `__init__` and no
operation ever modifies it. -/
theorem instance_size_always_large (env : FONPR_Env) (h : Reachable env) :
    env.instance_size = "Large" := by
  induction h with
  | init rm w r p => rfl
  | reset env' pr' _ ih => rw [reset_env_unchanged]; exact ih
  | step env' a cc hb pr' _ ih =>
      exact ((step_env_frame env' a cc hb pr').2.2.2.2.1).trans ih

/-- Witness for C6 at the freshly constructed default environment. -/
theorem instance_size_always_large_witness :
    (FONPR_Env.init none 15 4 5).instance_size = "Large" :=
  instance_size_always_large _ (Reachable.init none 15 4 5)

/-- C7 (confirmed): the observation `_get_obs` returns depends only on
the throughput series of the first query result; the pod and
node-instance-type data are collected but never used in the returned
value. -/
theorem getObs_depends_only_on_throughput (env : FONPR_Env) (r1 r2 : PromResponse)
    (h : r1.throughput = r2.throughput) :
    env.getObs r1 = env.getObs r2 := by
  unfold FONPR_Env.getObs
  rw [h]

/-- Witness for C7: `pr0` and `pr1` share the throughput series but
differ in pod and instance-type data. -/
theorem getObs_depends_only_on_throughput_witness :
    env0.getObs pr0 = env0.getObs pr1 :=
  getObs_depends_only_on_throughput env0 pr0 pr1 rfl

/-- C8 (confirmed): every completed call to `step` increments
`step_counter` by exactly one and returns `truncated = True` exactly
when the incremented counter is a multiple of 6. -/
theorem step_increments_counter_truncates_mod_six (env : FONPR_Env) (a : ℕ)
    (cc : String → ℚ) (h : Bool) (pr : Except ExtErr PromResponse) (res : StepResult)
    (hres : (env.step a cc h pr).result = .ok res) :
    (env.step a cc h pr).env.step_counter = env.step_counter + 1 ∧
    (res.truncated = true ↔ (env.step_counter + 1) % 6 = 0) := by
  obtain ⟨obs, -, hres', henv⟩ := step_result_ok env a cc h pr res hres
  constructor
  · rw [henv]
  · subst hres'
    exact decide_eq_true_iff

/-- Witness for C8 at the concrete run `env0.step 0 oneCost true (.ok pr0)`. -/
theorem step_increments_counter_witness :
    (env0.step 0 oneCost true (.ok pr0)).env.step_counter = env0.step_counter + 1 :=
  (step_increments_counter_truncates_mod_six env0 0 oneCost true (.ok pr0) res0 step_env0_eval).1

/-- C9 (confirmed): every completed call to `step` returns
`terminated = False`; the environment never signals a terminal state. -/
theorem step_never_terminates (env : FONPR_Env) (a : ℕ) (cc : String → ℚ)
    (h : Bool) (pr : Except ExtErr PromResponse) (res : StepResult)
    (hres : (env.step a cc h pr).result = .ok res) :
    res.terminated = false := by
  obtain ⟨obs, -, hres', -⟩ := step_result_ok env a cc h pr res hres
  subst hres'
  rfl

/-- Witness for C9 at the concrete run `env0.step 0 oneCost true (.ok pr0)`. -/
theorem step_never_terminates_witness : res0.terminated = false :=
  step_never_terminates env0 0 oneCost true (.ok pr0) res0 step_env0_eval

/-- C10 (confirmed): `step` modifies only `step_counter`: `window`,
`sample_rate`, `samples`, `obs_period`, `instance_size`,
`observation_space`, `action_space` and `render_mode` are unchanged by
`step`, and `reset` modifies none of the fields. -/
theorem step_reset_frame (env : FONPR_Env) (a : ℕ) (cc : String → ℚ) (h : Bool)
    (pr pr' : Except ExtErr PromResponse) :
    (env.step a cc h pr).env.window = env.window ∧
    (env.step a cc h pr).env.sample_rate = env.sample_rate ∧
    (env.step a cc h pr).env.samples = env.samples ∧
    (env.step a cc h pr).env.obs_period = env.obs_period ∧
    (env.step a cc h pr).env.instance_size = env.instance_size ∧
    (env.step a cc h pr).env.observation_space = env.observation_space ∧
    (env.step a cc h pr).env.action_space = env.action_space ∧
    (env.step a cc h pr).env.render_mode = env.render_mode ∧
    (env.reset pr').2 = env := by
  obtain ⟨h1, h2, h3, h4, h5, h6, h7, h8⟩ := step_env_frame env a cc h pr
  exact ⟨h1, h2, h3, h4, h5, h6, h7, h8, reset_env_unchanged env pr'⟩
